import Mathlib

/-!
Verification development for the domain-expiry monitoring core of this
repository (`server/model/domain_expiry.js`, the `domain-expiry` monitor type,
and the `domain_expiry` table migration).

Shallow embedding conventions:
* Instants are UTC epoch milliseconds, modelled as `Int`.
* JS `null`/absent values are modelled with `Option`.
* `dayjs(a).diff(b, "day")` truncates the millisecond difference toward zero
  (dayjs `absFloor`), which is `Int.tdiv`.
* External collaborators (the WHOIS transport, `parse-whois`, `tldts`,
  the settings store, notification providers) are inputs of the embedded
  functions: the embedding quantifies over their outputs.
-/

/-! ## Calendar arithmetic (civil ↔ epoch-day conversion, Howard Hinnant's algorithm) -/

/-- Days since the Unix epoch of the civil (proleptic Gregorian) date y-m-d. -/
def daysFromCivil (y m d : Int) : Int :=
  let y' := y - (if m ≤ 2 then 1 else 0)
  let era := Int.fdiv y' 400
  let yoe := y' - era * 400
  let mp := if m > 2 then m - 3 else m + 9
  let doy := Int.fdiv (153 * mp + 2) 5 + d - 1
  let doe := yoe * 365 + Int.fdiv yoe 4 - Int.fdiv yoe 100 + doy
  era * 146097 + doe - 719468

/-- Civil (proleptic Gregorian) date of a count of days since the Unix epoch. -/
def civilFromDays (z0 : Int) : Int × Int × Int :=
  let z := z0 + 719468
  let era := Int.fdiv z 146097
  let doe := z - era * 146097
  let yoe := Int.fdiv (doe - Int.fdiv doe 1460 + Int.fdiv doe 36524 - Int.fdiv doe 146096) 365
  let y := yoe + era * 400
  let doy := doe - (365 * yoe + Int.fdiv yoe 4 - Int.fdiv yoe 100)
  let mp := Int.fdiv (5 * doy + 2) 153
  let d := doy - Int.fdiv (153 * mp + 2) 5 + 1
  let m := mp + (if mp < 10 then 3 else -9)
  (y + (if m ≤ 2 then 1 else 0), m, d)

/-- Milliseconds in one day. -/
def msPerDay : Int := 86400000

/-- Epoch milliseconds of a civil UTC date-time. -/
def msOfCivil (y m d h mi s : Int) : Int :=
  daysFromCivil y m d * msPerDay + h * 3600000 + mi * 60000 + s * 1000

example : daysFromCivil 1970 1 1 = 0 := by decide
example : civilFromDays 0 = (1970, 1, 1) := by decide
example : daysFromCivil 2030 5 1 - daysFromCivil 2030 4 20 = 11 := by decide

/-- Source: `dayjs.utc(a).diff(dayjs.utc(b), "day")` — the millisecond difference
divided by a day's milliseconds, truncated toward zero (dayjs `absFloor`). -/
def dayjsDiffDay (a b : Int) : Int :=
  Int.tdiv (a - b) msPerDay

/-! ## Small character-level models of the JS string operations used by the source -/

/-- Model of JS `String.prototype.trim`: strip leading and trailing whitespace. -/
def jsTrim (s : String) : String :=
  String.mk (((s.data.dropWhile Char.isWhitespace).reverse.dropWhile Char.isWhitespace).reverse)

/-- Model of JS `String.prototype.split(".")` at the character-list level:
`"co.uk"` ↦ `[['c','o'], ['u','k']]`, and `""` ↦ `[[]]` as in JS. -/
def splitDots : List Char → List (List Char)
  | [] => [[]]
  | c :: rest =>
    let r := splitDots rest
    if c = '.' then [] :: r
    else
      match r with
      | [] => [[c]]
      | h :: t => (c :: h) :: t

/-- Source: `publicSuffix.split(".").pop()` — the last dot-separated component. -/
def lastDotComponent (s : String) : String :=
  String.mk ((splitDots s.data).getLastD [])

example : lastDotComponent "co.uk" = "uk" := by decide
example : lastDotComponent "com" = "com" := by decide

/-- Digit characters of a natural number, left-padded with `'0'` to width `w`. -/
def padChars (w : Nat) (n : Nat) : List Char :=
  let ds := Nat.toDigits 10 n
  List.replicate (w - ds.length) '0' ++ ds

/-- Model of redbean-node's `R.isoDateTimeMillis` serialization of a valid UTC
instant, the `"YYYY-MM-DD HH:mm:ss.SSS"` string stored in the `domain_expiry`
table's timestamp columns.  Character list of the serialization. -/
def isoDateTimeMillisChars (ms : Int) : List Char :=
  let days := Int.fdiv ms msPerDay
  let rem := (Int.emod ms msPerDay).toNat
  let c := civilFromDays days
  padChars 4 c.1.toNat ++ '-' :: padChars 2 c.2.1.toNat ++ '-' :: padChars 2 c.2.2.toNat ++
    ' ' :: padChars 2 (rem / 3600000) ++ ':' :: padChars 2 (rem / 60000 % 60) ++
    ':' :: padChars 2 (rem / 1000 % 60) ++ '.' :: padChars 3 (rem % 1000)

/-- The stored serialized form of a valid instant (see `isoDateTimeMillisChars`). -/
def isoDateTimeMillisStr (ms : Int) : String :=
  String.mk (isoDateTimeMillisChars ms)

/-- Model of JS `Date.prototype.toISOString`: `"YYYY-MM-DDTHH:mm:ss.SSSZ"`. -/
def toISOStringModel (ms : Int) : String :=
  let days := Int.fdiv ms msPerDay
  let rem := (Int.emod ms msPerDay).toNat
  let c := civilFromDays days
  String.mk (padChars 4 c.1.toNat ++ '-' :: padChars 2 c.2.1.toNat ++ '-' :: padChars 2 c.2.2.toNat ++
    'T' :: padChars 2 (rem / 3600000) ++ ':' :: padChars 2 (rem / 60000 % 60) ++
    ':' :: padChars 2 (rem / 1000 % 60) ++ '.' :: padChars 3 (rem % 1000) ++ ['Z'])

example : toISOStringModel (msOfCivil 2030 5 1 0 0 0) = "2030-05-01T00:00:00.000Z" := by decide

/-- Numeric value of a decimal digit character. -/
def digitVal (c : Char) : Option Nat :=
  if c.isDigit then some (c.toNat - 48) else none

/-- Combine four optional digits into a number. -/
def num4 (a b c d : Char) : Option Nat :=
  match digitVal a, digitVal b, digitVal c, digitVal d with
  | some x, some y, some z, some w => some (x * 1000 + y * 100 + z * 10 + w)
  | _, _, _, _ => none

/-- Combine two optional digits into a number. -/
def num2 (a b : Char) : Option Nat :=
  match digitVal a, digitVal b with
  | some x, some y => some (x * 10 + y)
  | _, _ => none

/-- Partial model of JS `new Date(string)` parsing, covering the ISO forms this
development exercises (`YYYY-MM-DD`, treated as UTC midnight as JS does, and
`YYYY-MM-DDTHH:MM:SSZ`); every other input is treated as unparseable (an
Invalid Date, `none`).  The theorems about the extractor quantify over the
date parser, so this concrete instance is only used to evaluate witnesses
and counterexamples on concrete registry texts. -/
def jsDateParseISO (s : String) : Option Int :=
  match s.data with
  | [y1, y2, y3, y4, '-', m1, m2, '-', d1, d2] =>
    match num4 y1 y2 y3 y4, num2 m1 m2, num2 d1 d2 with
    | some y, some m, some d => some (msOfCivil y m d 0 0 0)
    | _, _, _ => none
  | [y1, y2, y3, y4, '-', m1, m2, '-', d1, d2, 'T', h1, h2, ':', n1, n2, ':', s1, s2, 'Z'] =>
    match num4 y1 y2 y3 y4, num2 m1 m2, num2 d1 d2, num2 h1 h2, num2 n1 n2, num2 s1 s2 with
    | some y, some m, some d, some h, some n, some sec => some (msOfCivil y m d h n sec)
    | _, _, _, _, _, _ => none
  | _ => none

example : jsDateParseISO "2030-05-01T00:00:00Z" = some (msOfCivil 2030 5 1 0 0 0) := by decide
example : jsDateParseISO "2031-01-01" = some (msOfCivil 2031 1 1 0 0 0) := by decide
example : jsDateParseISO "not a date" = none := by decide

/-! ## Expiry extractor (`getWhoisDomainExpiryDate`, domain_expiry.js lines 43-73) -/

/-- Source: the `WHOIS_EXPIRY_KEYS` constant. -/
def WHOIS_EXPIRY_KEYS : List String :=
  ["Registrar Registration Expiration Date",
   "Registry Expiry Date",
   "Expiration Time",
   "paid-till"]

/-- Source: `WHOIS_EXPIRY_KEYS.includes(String(param.attribute || "").trim())`. -/
def isExpiryKey (attr : String) : Bool :=
  WHOIS_EXPIRY_KEYS.contains (jsTrim attr)

/-- Model of a plain JS object used as a string-keyed map: an association list
with unique keys in insertion order.  `objInsert` is one `obj[k] = v`
assignment — an existing key keeps its position and gets the new value,
a new key is appended. -/
def objInsert (m : List (String × String)) (k v : String) : List (String × String) :=
  if m.any (fun p => p.1 = k) then
    m.map (fun p => if p.1 = k then (k, v) else p)
  else
    m ++ [(k, v)]

/-- Reading `obj[k]` from the association-list object model. -/
def objLookup (m : List (String × String)) (k : String) : Option String :=
  (m.find? (fun p => p.1 = k)).map (fun p => p.2)

/-- Outcome of `whois.lookup`: a transport error, or raw data already parsed by
`parse-whois` into its ordered `{attribute, value}` records (the parser is an
external collaborator, so the embedding takes its output as the input). -/
inductive WhoisResult where
  | err : WhoisResult
  | ok : List (String × String) → WhoisResult

/-- Source: the `for (const [, param] of Object.entries(parsedData))` loop.
`paidTill` models the `paidTillDate` variable: `none` when never assigned,
`some (dateParse v)` after `paidTillDate = new Date(param.value)` where the
inner option is `none` for an Invalid Date.  `info` accumulates
`whoisInfo[param.attribute] = param.value`. -/
def whoisScan (dateParse : String → Option Int) :
    List (String × String) → Option (Option Int) → List (String × String) →
    Option (Option Int) × List (String × String)
  | [], paidTill, info => (paidTill, info)
  | (k, v) :: rest, paidTill, info =>
    let paidTill' := if isExpiryKey k then some (dateParse v) else paidTill
    whoisScan dateParse rest paidTill' (objInsert info k v)

/-- Source: `getWhoisDomainExpiryDate`.  A transport error resolves to
`{expiryDate: null, whoisInfo: null}`; otherwise the scan runs and a missing or
Invalid `paidTillDate` (`!paidTillDate || Number.isNaN(paidTillDate.getTime())`)
resolves `expiryDate` to `null` while `whoisInfo` is kept.  The function is
total: no path throws. -/
def getWhoisDomainExpiryDate (dateParse : String → Option Int) :
    WhoisResult → Option Int × Option (List (String × String))
  | .err => (none, none)
  | .ok pairs =>
    let scan := whoisScan dateParse pairs none []
    match scan.1 with
    | some (some ms) => (some ms, some scan.2)
    | _ => (none, some scan.2)

/-! ## Expiry record store (`DomainExpiry.checkExpiry`, domain_expiry.js lines 204-232) -/

/-- The persisted `domain_expiry` row (`domain`, `expiry`, `last_check`,
`last_expiry_notification_sent`, `whois_info`).  Timestamp columns hold either
SQL NULL (`none`) or the serialization of a valid UTC instant, modelled at
millisecond precision (`some ms`, stored as `isoDateTimeMillisStr ms` — the
serialization round-trips at this precision).  `whoisInfo` holds the
JSON-serialized attribute map, modelled as the association list itself. -/
structure ExpiryBean where
  domain : String
  expiry : Option Int
  lastCheck : Option Int
  lastExpiryNotificationSent : Option Int
  whoisInfo : Option (List (String × String))
  deriving Repr, DecidableEq

/-- Source: `bean?.lastCheck && dayjs.utc(bean.lastCheck).diff(dayjs.utc(), "day") < 1`
— the throttle condition exactly as written, with the stored `lastCheck` as the
minuend and `now` as the subtrahend (a SQL NULL `lastCheck` is falsy). -/
def recentlyChecked (lastCheck : Option Int) (now : Int) : Bool :=
  match lastCheck with
  | none => false
  | some lc => dayjsDiffDay lc now < 1

/-- Source: `dayjs.utc(expiryDate).isAfter(dayjs.utc(bean.expiry))` — true only
when both sides are valid instants and the left is strictly later (dayjs
`isAfter` is false whenever either side is an Invalid Date, e.g. `null`). -/
def isAfterOpt : Option Int → Option Int → Bool
  | some a, some b => a > b
  | _, _ => false

/-- The JS value `checkExpiry` resolves with: the stored `expiry` column value
as-is on the throttled branch (a serialized string or `null`, not a `Date`),
a fresh `Date` object on the query branch, or `undefined`. -/
inductive CheckExpiryRet where
  | cachedStored : Option Int → CheckExpiryRet
  | freshDate : Int → CheckExpiryRet
  | undefinedVal : CheckExpiryRet
  deriving Repr, DecidableEq

/-- Result of one `checkExpiry` call: the resolved value, the record state
afterwards, and whether a registry query was performed. -/
structure CheckOutcome where
  ret : CheckExpiryRet
  bean : Option ExpiryBean
  didQuery : Bool
  deriving Repr, DecidableEq

/-- Source: `DomainExpiry.checkExpiry`.  `bean` is the record loaded (or
created) for the domain, `res` the registry lookup outcome for this cycle.
On the throttled branch the stored `expiry` is returned unchanged and no query
happens.  Otherwise the extractor runs; `lastExpiryNotificationSent` is cleared
when the fresh date is strictly after the stored one; then, unconditionally,
`expiry` is overwritten with the (possibly null) fresh extraction, `lastCheck`
is stamped with `now`, `whois_info` is replaced, and the bean is stored
(persistence is modelled by returning the stored bean; per the spec's 4.4
step 5 the serialization of a null extraction persists as a null expiry).
A null fresh extraction resolves `undefined`. -/
def checkExpiry (bean : Option ExpiryBean) (now : Int) (res : WhoisResult)
    (dateParse : String → Option Int) : CheckOutcome :=
  match bean with
  | none => ⟨.undefinedVal, none, false⟩
  | some b =>
    if recentlyChecked b.lastCheck now then
      ⟨.cachedStored b.expiry, some b, false⟩
    else
      let ex := getWhoisDomainExpiryDate dateParse res
      let b1 := if isAfterOpt ex.1 b.expiry then { b with lastExpiryNotificationSent := none } else b
      let b2 := { b1 with expiry := ex.1, lastCheck := some now, whoisInfo := ex.2 }
      match ex.1 with
      | none => ⟨.undefinedVal, some b2, true⟩
      | some ms => ⟨.freshDate ms, some b2, true⟩

/-! ## Notification threshold engine (`sendNotifications`, domain_expiry.js lines 239-295,
and `sendDomainNotificationByTargetDays`, lines 83-101) -/

/-- Source: `sendDomainNotificationByTargetDays` — every provider is attempted
(a per-provider failure is logged and does not abort the rest) and the call
reports whether at least one send succeeded.  The per-provider outcomes of the
external `Notification.send` are the input list. -/
def sendDomainNotificationByTargetDays (outcomes : List Bool) : Bool :=
  outcomes.any id

/-- Source: `lastSent && lastSent <= targetDays` — JS truthiness: a SQL NULL
`last_expiry_notification_sent` is falsy, and so is a stored value of `0`. -/
def suppressJS (lastSent : Option Int) (t : Int) : Bool :=
  match lastSent with
  | none => false
  | some s => !(s = 0 : Bool) && (s ≤ t : Bool)

/-- The two `continue` guards of the `for (const targetDays of notifyDays)`
loop, as one predicate: the not-yet-in-window skip and the already-sent skip. -/
def skipThreshold (daysRemaining : Int) (lastSent : Option Int) (t : Int) : Bool :=
  (daysRemaining > t : Bool) || suppressJS lastSent t

/-- Source: the `for (const targetDays of notifyDays)` loop body.  For each
threshold in order: skip while `daysRemaining > targetDays`; skip while
`lastSent && lastSent <= targetDays`; otherwise attempt the providers and stop
with this threshold on success; on all-providers failure move on.
`outcomes t` gives the external per-provider send outcomes at threshold `t`. -/
def notifyLoop (daysRemaining : Int) (lastSent : Option Int)
    (outcomes : Int → List Bool) : List Int → Option Int
  | [] => none
  | t :: ts =>
    if daysRemaining > t then notifyLoop daysRemaining lastSent outcomes ts
    else if suppressJS lastSent t then notifyLoop daysRemaining lastSent outcomes ts
    else if sendDomainNotificationByTargetDays (outcomes t) then some t
    else notifyLoop daysRemaining lastSent outcomes ts

/-- The effective threshold list: the `domainExpiryNotifyDays` setting when it
is a valid array, else the persisted default `[7, 14, 21]`, then sorted
ascending by the numeric comparator `(a, b) => a - b`. -/
def sortedNotifyDays (settingDays : Option (List Int)) : List Int :=
  List.insertionSort (fun a b => a ≤ b) (settingDays.getD [7, 14, 21])

/-- Source: `DomainExpiry.sendNotifications`.  Fast-exit on an empty provider
list; defensive exit when the stored expiry is NULL or does not parse to a
valid date; otherwise `daysRemaining` is the truncated day difference from now
to the stored expiry and the ascending-sorted threshold loop runs.  Returns the
threshold sent (the function's return value) and the record afterwards — on a
successful send the record is persisted with
`lastExpiryNotificationSent = targetDays`. -/
def sendNotifications (b : ExpiryBean) (now : Int) (nProviders : Nat)
    (outcomes : Int → List Bool) (settingDays : Option (List Int)) :
    Option Int × ExpiryBean :=
  if nProviders = 0 then (none, b)
  else
    match b.expiry with
    | none => (none, b)
    | some e =>
      let daysRemaining := dayjsDiffDay e now
      match notifyLoop daysRemaining b.lastExpiryNotificationSent outcomes
          (sortedNotifyDays settingDays) with
      | some t => (some t, { b with lastExpiryNotificationSent := some t })
      | none => (none, b)

/-! ## Domain support check (`DomainExpiry.checkSupport`, domain_expiry.js lines 144-171) -/

/-- The shape of a `tldts` `parse` result (the code's own typedef references
`tldts-core`'s `IResult`, whose `publicSuffix` and `domain` are
`string | null`; `publicSuffix` is `null` when no hostname/suffix could be
extracted from the input at all). -/
structure TldResult where
  hostname : Option String
  isIp : Bool
  publicSuffix : Option String
  domain : Option String
  deriving Repr, DecidableEq

/-- Outcome of `checkSupport`: one of the four typed `TranslatableError`
failures, an untyped JS `TypeError` (reading `.length` of `null`), or the
success object `{domain: tld.domain, tld: publicSuffix.split(".").pop()}`. -/
inductive SupportOutcome where
  | unsupportedMonitorType : SupportOutcome
  | missingTarget : SupportOutcome
  | targetIsIp : SupportOutcome
  | suffixTooShort : SupportOutcome
  | typeError : SupportOutcome
  | ok : Option String → String → SupportOutcome
  deriving Repr, DecidableEq

/-- Source: `DomainExpiry.checkSupport`.  `typeSupported` models
`monitor.type in TYPES_WITH_DOMAIN_EXPIRY_SUPPORT_VIA_FIELD` (the membership
set lives in `src/util`, outside the provided sources; spec 4.1: the known set
of types that expose a domain-bearing target field).  `target` is
`monitor[targetField]` when it is a string (`none` models a missing or
non-string field), and `parsed` is the `tldts` parse result for that target.
`tld.publicSuffix.length` on a `null` public suffix throws a `TypeError`. -/
def checkSupport (typeSupported : Bool) (target : Option String)
    (parsed : TldResult) : SupportOutcome :=
  if !typeSupported then .unsupportedMonitorType
  else
    match target with
    | none => .missingTarget
    | some t =>
      if t.length = 0 then .missingTarget
      else if parsed.isIp then .targetIsIp
      else
        match parsed.publicSuffix with
        | none => .typeError
        | some ps =>
          if ps.length < 2 then .suffixTooShort
          else .ok parsed.domain (lastDotComponent ps)

/-! ## Monitor adapter (`DomainExpiryMonitorType.check`, the unnamed monitor-type source) -/

/-- The JS value the adapter receives from `checkExpiry`, with its runtime
type: `undefined`, `null`, a string (the stored serialized column value from
the throttled branch), or a `Date` (`none` inside `date` models an Invalid
Date whose `getTime()` is NaN). -/
inductive JsRet where
  | undefinedVal : JsRet
  | nullv : JsRet
  | str : String → JsRet
  | date : Option Int → JsRet
  deriving Repr, DecidableEq

/-- The runtime value of `checkExpiry`'s resolved result: the throttled branch
hands the adapter the raw stored column value — the serialized string for a
stored expiry, or `null` — while the query branch hands it a `Date`. -/
def jsRetOfCheckRet : CheckExpiryRet → JsRet
  | .cachedStored none => .nullv
  | .cachedStored (some ms) => .str (isoDateTimeMillisStr ms)
  | .freshDate ms => .date (some ms)
  | .undefinedVal => .undefinedVal

/-- What one adapter `check` call does: throw an `Error` with a message, crash
with an untyped `TypeError`, or set the heartbeat UP with a message. -/
inductive AdapterOutcome where
  | thrown : String → AdapterOutcome
  | typeError : AdapterOutcome
  | up : String → AdapterOutcome
  deriving Repr, DecidableEq

/-- Source: the adapter's no-expiry error message. -/
def noExpiryMsg (dom : String) : String :=
  "No registry expiry date was found for domain " ++ dom

/-- Source: the adapter's expired-domain error message, with the singular and
plural day-word handling of the template. -/
def expiredMsg (dom : String) (daysRemaining : Int) : String :=
  "Domain " ++ dom ++ " expired " ++ toString |daysRemaining| ++
    (if |daysRemaining| = 1 then " day" else " days") ++ " ago"

/-- Source: the adapter's UP heartbeat message. -/
def upMsg (dom : String) (daysRemaining : Int) (isoOfDate : String) : String :=
  dom ++ " expires in " ++ toString daysRemaining ++ " days (" ++ isoOfDate ++ ")"

/-- Source: `DomainExpiryMonitorType.check` after `checkSupport` and
`checkExpiry` have run.  `v` is the JS value `checkExpiry` resolved,
`beanExpiry` the stored expiry of the freshly re-loaded record (from which the
`daysRemaining` getter computes `dayjs.utc(this.expiry).diff(dayjs.utc(), "day")`;
`none` models an invalid stored value whose diff is NaN, and every comparison
with NaN is false).  `!expiryDate` is true for `undefined`/`null`/the empty
string; `expiryDate.getTime()` on a string value throws a `TypeError`. -/
def adapterCheck (dom : String) (v : JsRet) (beanExpiry : Option Int)
    (now : Int) : AdapterOutcome :=
  match v with
  | .undefinedVal => .thrown (noExpiryMsg dom)
  | .nullv => .thrown (noExpiryMsg dom)
  | .str s => if s.length = 0 then .thrown (noExpiryMsg dom) else .typeError
  | .date none => .thrown (noExpiryMsg dom)
  | .date (some ms) =>
    match beanExpiry with
    | none => .up (dom ++ " expires in NaN days (" ++ toISOStringModel ms ++ ")")
    | some e =>
      let daysRemaining := dayjsDiffDay e now
      if daysRemaining < 0 then .thrown (expiredMsg dom daysRemaining)
      else .up (upMsg dom daysRemaining (toISOStringModel ms))

/-! ## Helper lemmas -/

@[simp]
theorem isAfterOpt_none_left (x : Option Int) : isAfterOpt none x = false := by
  cases x <;> rfl

@[simp]
theorem isAfterOpt_some_some (a b : Int) : isAfterOpt (some a) (some b) = (b < a : Bool) := rfl

theorem isoDateTimeMillisStr_length_ne_zero (ms : Int) :
    (isoDateTimeMillisStr ms).length ≠ 0 := by
  show (isoDateTimeMillisChars ms).length ≠ 0
  simp [isoDateTimeMillisChars]

/-! ## C1 — the recheck throttle -/

/-- A record whose `lastCheck` is 2026-01-01, with a stored expiry. -/
def beanStaleC1 : ExpiryBean :=
  ⟨"example.com", some (msOfCivil 2026 5 1 0 0 0), some (msOfCivil 2026 1 1 0 0 0), none, none⟩

/-- C1: the claim says a record whose `lastCheck` is one full UTC day or more
before now gets a fresh registry query.  The code computes
`dayjs.utc(lastCheck).diff(dayjs.utc(), "day") < 1`, which is negative for
every past `lastCheck`, so even ten days after the last check (2026-01-01
checked, now 2026-01-11) the throttled branch is taken: no query happens and
the cached expiry is returned.  Query volume IS reduced to zero once
`lastCheck` is set to any past instant, contradicting the claim (and the
code's own "checked recently" log line). -/
theorem checkExpiry_throttle_never_requeries :
    (checkExpiry (some beanStaleC1) (msOfCivil 2026 1 11 0 0 0)
        (.ok [("Registry Expiry Date", "2027-01-01")]) jsDateParseISO).didQuery = false ∧
    (checkExpiry (some beanStaleC1) (msOfCivil 2026 1 11 0 0 0)
        (.ok [("Registry Expiry Date", "2027-01-01")]) jsDateParseISO).ret =
      .cachedStored (some (msOfCivil 2026 5 1 0 0 0)) ∧
    recentlyChecked (some (msOfCivil 2026 1 1 0 0 0)) (msOfCivil 2026 1 11 0 0 0) = true := by
  decide

/-! ## C2 — what a failed extraction does to the record -/

/-- A record with a previously stored expiry (2025-01-10) and no `lastCheck`. -/
def beanC2 : ExpiryBean :=
  ⟨"example.com", some (msOfCivil 2025 1 10 0 0 0), none, some 7, none⟩

/-- C2 counterexample: a cycle in which the extractor finds no date (the
response has no expiry attribute) does NOT leave the record untouched: the
stored expiry 2025-01-10 is overwritten with the null extraction and
`lastCheck` is stamped with now, because the persist block of `checkExpiry`
is unconditional. -/
theorem failedCheck_rewrites_record_cx :
    (checkExpiry (some beanC2) (msOfCivil 2026 2 1 0 0 0)
        (.ok [("Registrar", "Example Registrar Inc")]) jsDateParseISO).bean =
      some ⟨"example.com", none, some (msOfCivil 2026 2 1 0 0 0), some 7,
            some [("Registrar", "Example Registrar Inc")]⟩ := by
  decide

/-- C2 amended: in every non-throttled `checkExpiry` cycle whose extraction
finds no date, the record's `expiry` is overwritten with the (null) extraction,
`lastCheck` is stamped with now, and the whois info is replaced — the prior
`expiry` and `lastCheck` are not preserved — and the cycle resolves
`undefined`.  Only `lastExpiryNotificationSent` is left unchanged. -/
theorem failedCheck_overwrites_expiry_and_lastCheck
    (b : ExpiryBean) (now : Int) (res : WhoisResult) (dp : String → Option Int)
    (hth : recentlyChecked b.lastCheck now = false)
    (hex : (getWhoisDomainExpiryDate dp res).1 = none) :
    (checkExpiry (some b) now res dp).bean =
      some { b with expiry := none, lastCheck := some now,
                    whoisInfo := (getWhoisDomainExpiryDate dp res).2 } ∧
    (checkExpiry (some b) now res dp).ret = .undefinedVal := by
  have h2 : isAfterOpt (getWhoisDomainExpiryDate dp res).1 b.expiry = false := by
    rw [hex]; exact isAfterOpt_none_left _
  refine ⟨?_, ?_⟩ <;> simp [checkExpiry, hth, hex, h2]

/-- C2 witness: the amended theorem evaluated on a concrete record. -/
theorem failedCheck_overwrites_witness :
    (checkExpiry (some ⟨"w2.example", some 1000, none, some 7, none⟩) 5000
        (.ok []) jsDateParseISO).ret = .undefinedVal :=
  (failedCheck_overwrites_expiry_and_lastCheck
    ⟨"w2.example", some 1000, none, some 7, none⟩ 5000 (.ok []) jsDateParseISO
    (by decide) (by decide)).2

/-! ## C4 — renewal detection clears notification suppression -/

/-- C4: in a non-throttled cycle that extracts a valid date `e1` against a
record with stored expiry `e0`, `lastExpiryNotificationSent` is cleared to
null exactly when `e1` is strictly later than `e0`, and left unchanged
otherwise; the fresh date is persisted as the new expiry either way and the
cycle resolves the fresh date. -/
theorem renewal_clears_notification_suppression
    (b : ExpiryBean) (now e0 e1 : Int) (res : WhoisResult) (dp : String → Option Int)
    (h0 : b.expiry = some e0)
    (hth : recentlyChecked b.lastCheck now = false)
    (hex : (getWhoisDomainExpiryDate dp res).1 = some e1) :
    (checkExpiry (some b) now res dp).bean =
      some { b with expiry := some e1, lastCheck := some now,
                    whoisInfo := (getWhoisDomainExpiryDate dp res).2,
                    lastExpiryNotificationSent :=
                      if e0 < e1 then none else b.lastExpiryNotificationSent } ∧
    (checkExpiry (some b) now res dp).ret = .freshDate e1 := by
  by_cases hlt : e0 < e1 <;>
    refine ⟨?_, ?_⟩ <;> simp [checkExpiry, hth, hex, h0, hlt]

/-- C4 witness: the spec's own renewal vector — stored expiry 2025-01-10 with
`lastNotificationThreshold = 7`, a fresh extraction of 2026-01-10 — ends with
the threshold cleared to null and the new expiry stored. -/
theorem renewal_clears_notification_witness :
    (checkExpiry (some ⟨"w4.example", some (msOfCivil 2025 1 10 0 0 0), none, some 7, none⟩)
        (msOfCivil 2026 2 1 0 0 0)
        (.ok [("Registry Expiry Date", "2026-01-10")]) jsDateParseISO).bean =
      some ⟨"w4.example", some (msOfCivil 2026 1 10 0 0 0), some (msOfCivil 2026 2 1 0 0 0),
            none, some [("Registry Expiry Date", "2026-01-10")]⟩ := by
  have h := renewal_clears_notification_suppression
    ⟨"w4.example", some (msOfCivil 2025 1 10 0 0 0), none, some 7, none⟩
    (msOfCivil 2026 2 1 0 0 0) (msOfCivil 2025 1 10 0 0 0) (msOfCivil 2026 1 10 0 0 0)
    (.ok [("Registry Expiry Date", "2026-01-10")]) jsDateParseISO
    rfl (by decide) (by decide)
  exact h.1.trans (by decide)

/-! ## C7 — soft failure of the registry query, undefined on null extraction -/

/-- C7: a transport error from the lookup resolves the soft-failure value
`{expiryDate: null, whoisInfo: null}` rather than rejecting, and every
`checkExpiry` cycle whose fresh extraction is null resolves `undefined` —
never the stored date and never a null/epoch date (the embedded functions are
total: no path of the model throws). -/
theorem whois_soft_failure_and_undefined
    (dp : String → Option Int) (b : ExpiryBean) (now : Int) (res : WhoisResult)
    (hth : recentlyChecked b.lastCheck now = false)
    (hex : (getWhoisDomainExpiryDate dp res).1 = none) :
    getWhoisDomainExpiryDate dp .err = (none, none) ∧
    (checkExpiry (some b) now res dp).ret = .undefinedVal := by
  have h2 : isAfterOpt (getWhoisDomainExpiryDate dp res).1 b.expiry = false := by
    rw [hex]; exact isAfterOpt_none_left _
  exact ⟨rfl, by simp [checkExpiry, hth, hex, h2]⟩

/-- C7 witness: a network-error cycle on a fresh record resolves `undefined`. -/
theorem whois_soft_failure_witness :
    (checkExpiry (some ⟨"w7.example", none, none, none, none⟩) 42 .err jsDateParseISO).ret =
      .undefinedVal :=
  (whois_soft_failure_and_undefined jsDateParseISO ⟨"w7.example", none, none, none, none⟩
    42 .err (by decide) (by decide)).2

/-! ## C10 — the throttled branch hands the adapter a string -/

/-- C10: a throttled (`recentlyChecked`) cycle returns the stored `expiry`
column value as-is — at the JS level a serialized date-time string for a
stored expiry — with no query and no state change; the adapter's
`expiryDate.getTime()` on that non-empty string value then throws a
`TypeError` instead of producing an up or failed heartbeat. -/
theorem cacheHit_returns_stored_string_typeError
    (b : ExpiryBean) (now nowA : Int) (res : WhoisResult) (dp : String → Option Int)
    (dom : String) (beanExpiry : Option Int) (ms : Int)
    (hth : recentlyChecked b.lastCheck now = true)
    (he : b.expiry = some ms) :
    checkExpiry (some b) now res dp = ⟨.cachedStored (some ms), some b, false⟩ ∧
    jsRetOfCheckRet (.cachedStored (some ms)) = .str (isoDateTimeMillisStr ms) ∧
    adapterCheck dom (jsRetOfCheckRet (.cachedStored (some ms))) beanExpiry nowA =
      .typeError := by
  refine ⟨by simp [checkExpiry, hth, he], rfl, ?_⟩
  simp [adapterCheck, jsRetOfCheckRet, isoDateTimeMillisStr_length_ne_zero ms]

/-- C10 witness: a concrete throttled record makes the adapter crash with a
`TypeError`. -/
theorem cacheHit_typeError_witness :
    adapterCheck "w10.example" (jsRetOfCheckRet (.cachedStored (some 0))) none 0 =
      .typeError :=
  (cacheHit_returns_stored_string_typeError ⟨"w10.example", some 0, some 0, none, none⟩
    0 0 .err jsDateParseISO "w10.example" none 0 (by decide) rfl).2.2

/-! ## C3 — the extractor: registryInfo mapping and which matching pair wins -/

/-- The value of the LAST occurrence of key `k` in the attribute/value
sequence (`none` when `k` is not observed). -/
def lastValue : List (String × String) → String → Option String
  | [], _ => none
  | p :: rest, k =>
    match lastValue rest k with
    | some v => some v
    | none => if p.1 = k then some p.2 else none

/-- The LAST pair whose (trimmed) attribute is a known expiry key. -/
def lastExpiryPair : List (String × String) → Option (String × String)
  | [] => none
  | p :: rest =>
    match lastExpiryPair rest with
    | some q => some q
    | none => if isExpiryKey p.1 then some p else none

theorem find?_map_replace_self (k v : String) :
    ∀ m : List (String × String),
      (m.map (fun p => if p.1 = k then (k, v) else p)).find? (fun p => p.1 = k) =
        (if m.any (fun p => p.1 = k) then some (k, v) else none)
  | [] => rfl
  | q :: rest => by
    by_cases hq : q.1 = k
    · simp [hq, List.find?_cons_of_pos]
    · simp only [List.map_cons, List.any_cons, if_neg hq, decide_eq_false hq, Bool.false_or]
      rw [List.find?_cons_of_neg _ (by simpa using hq)]
      exact find?_map_replace_self k v rest

theorem find?_map_replace_ne (k v k' : String) (hne : k' ≠ k) :
    ∀ m : List (String × String),
      (m.map (fun p => if p.1 = k then (k, v) else p)).find? (fun p => p.1 = k') =
        m.find? (fun p => p.1 = k')
  | [] => rfl
  | q :: rest => by
    by_cases hq : q.1 = k
    · rw [List.map_cons, if_pos hq]
      rw [List.find?_cons_of_neg _ (by simpa using Ne.symm hne),
        List.find?_cons_of_neg _ (by simp [hq]; exact fun h => hne (h ▸ hq ▸ rfl))]
      exact find?_map_replace_ne k v k' hne rest
    · rw [List.map_cons, if_neg hq]
      by_cases hq' : q.1 = k'
      · rw [List.find?_cons_of_pos _ (by simpa using hq'),
          List.find?_cons_of_pos _ (by simpa using hq')]
      · rw [List.find?_cons_of_neg _ (by simpa using hq'),
          List.find?_cons_of_neg _ (by simpa using hq')]
        exact find?_map_replace_ne k v k' hne rest

theorem objLookup_objInsert_self (m : List (String × String)) (k v : String) :
    objLookup (objInsert m k v) k = some v := by
  unfold objInsert objLookup
  by_cases hm : m.any (fun p => p.1 = k)
  · rw [if_pos hm, find?_map_replace_self, if_pos hm]
    rfl
  · rw [if_neg hm, List.find?_append]
    have hnone : m.find? (fun p => p.1 = k) = none := by
      rw [List.find?_eq_none]
      intro p hp
      by_contra hc
      exact hm (List.any_eq_true.mpr ⟨p, hp, by simpa using hc⟩)
    simp [hnone]

theorem objLookup_objInsert_ne (m : List (String × String)) (k v k' : String)
    (hne : k' ≠ k) : objLookup (objInsert m k v) k' = objLookup m k' := by
  unfold objInsert objLookup
  by_cases hm : m.any (fun p => p.1 = k)
  · rw [if_pos hm, find?_map_replace_ne k v k' hne]
  · rw [if_neg hm, List.find?_append]
    have h2 : List.find? (fun p => p.1 = k') [(k, v)] = none := by
      simp [List.find?, Ne.symm hne]
    rw [h2]
    cases m.find? (fun p => p.1 = k') <;> rfl

theorem whoisScan_paidTill (dp : String → Option Int) :
    ∀ (pairs : List (String × String)) (acc : Option (Option Int))
      (info : List (String × String)),
      (whoisScan dp pairs acc info).1 =
        (match lastExpiryPair pairs with
         | some p => some (dp p.2)
         | none => acc)
  | [], _, _ => rfl
  | (a, b) :: rest, acc, info => by
    by_cases ha : isExpiryKey a
    · rw [show whoisScan dp ((a, b) :: rest) acc info =
          whoisScan dp rest (some (dp b)) (objInsert info a b) by simp [whoisScan, ha]]
      rw [whoisScan_paidTill dp rest (some (dp b)) (objInsert info a b)]
      cases hr : lastExpiryPair rest <;> simp [lastExpiryPair, hr, ha]
    · rw [show whoisScan dp ((a, b) :: rest) acc info =
          whoisScan dp rest acc (objInsert info a b) by simp [whoisScan, ha]]
      rw [whoisScan_paidTill dp rest acc (objInsert info a b)]
      cases hr : lastExpiryPair rest <;> simp [lastExpiryPair, hr, ha]

theorem whoisScan_info_lookup (dp : String → Option Int) :
    ∀ (pairs : List (String × String)) (acc : Option (Option Int))
      (info : List (String × String)) (k : String),
      objLookup (whoisScan dp pairs acc info).2 k =
        (match lastValue pairs k with
         | some v => some v
         | none => objLookup info k)
  | [], _, _, _ => rfl
  | (a, b) :: rest, acc, info, k => by
    have hstep : (whoisScan dp ((a, b) :: rest) acc info).2 =
        (whoisScan dp rest (if isExpiryKey a then some (dp b) else acc)
          (objInsert info a b)).2 := by
      simp [whoisScan]
    rw [hstep, whoisScan_info_lookup dp rest _ (objInsert info a b) k]
    cases hr : lastValue rest k
    · by_cases hak : a = k
      · subst hak
        simp [lastValue, hr, objLookup_objInsert_self]
      · simp [lastValue, hr, hak, objLookup_objInsert_ne info a b k (Ne.symm hak)]
    · simp [lastValue, hr]

/-- C3 amended: the extractor builds `registryInfo` as a mapping from every
observed attribute name to its value with the last occurrence winning on
duplicate keys — but the expiry date is derived from the LAST pair (not the
first) whose trimmed attribute name matches a known expiry-field name; when
that value fails to parse as a date, or no pair matches, `expiryDate` is null.
The extraction is a total function of the parsed pairs (never an exception),
for every date parser `dp`. -/
theorem getWhois_ok_eq (dp : String → Option Int) (pairs : List (String × String)) :
    getWhoisDomainExpiryDate dp (.ok pairs) =
      ((whoisScan dp pairs none []).1.join, some (whoisScan dp pairs none []).2) := by
  simp only [getWhoisDomainExpiryDate]
  generalize whoisScan dp pairs none [] = sc
  rcases sc with ⟨pt, info⟩
  rcases pt with _ | msq
  · rfl
  · rcases msq with _ | v <;> rfl

theorem extractor_registryInfo_last_match_wins (dp : String → Option Int)
    (pairs : List (String × String)) :
    (∀ k, objLookup ((getWhoisDomainExpiryDate dp (.ok pairs)).2.getD []) k =
        lastValue pairs k) ∧
    (getWhoisDomainExpiryDate dp (.ok pairs)).1 =
      (lastExpiryPair pairs).bind (fun p => dp p.2) ∧
    (getWhoisDomainExpiryDate dp (.ok pairs)).2 =
      some (whoisScan dp pairs none []).2 := by
  have hinfo : (getWhoisDomainExpiryDate dp (.ok pairs)).2 =
      some (whoisScan dp pairs none []).2 := by
    rw [getWhois_ok_eq]
  refine ⟨?_, ?_, hinfo⟩
  · intro k
    rw [hinfo]
    rw [show (some (whoisScan dp pairs none []).2).getD [] = (whoisScan dp pairs none []).2
      from rfl]
    rw [whoisScan_info_lookup dp pairs none [] k]
    cases lastValue pairs k <;> rfl
  · rw [getWhois_ok_eq]
    show ((whoisScan dp pairs none []).1).join = _
    rw [whoisScan_paidTill dp pairs none []]
    cases hl : lastExpiryPair pairs with
    | none => rfl
    | some p => rfl

/-- Modelled from the spec's words, for refinement comparison with the code:
derive the expiry from the FIRST pair whose attribute name matches a known
expiry-field name, parsing its value as a date. -/
def specFirstMatchExpiry (dp : String → Option Int)
    (pairs : List (String × String)) : Option Int :=
  (pairs.find? (fun p => isExpiryKey p.1)).bind (fun p => dp p.2)

/-- A registry response carrying two occurrences of the same expiry attribute
with different values. -/
def pairsC3 : List (String × String) :=
  [("Registry Expiry Date", "2030-01-01"), ("Registry Expiry Date", "2031-01-01")]

/-- C3 counterexample: on a response with two matching expiry attributes the
spec's first-match rule yields 2030-01-01 but the code's loop overwrites
`paidTillDate` on every match, so the extraction yields 2031-01-01 — the first
match does not win. -/
theorem extractor_first_match_cx :
    specFirstMatchExpiry jsDateParseISO pairsC3 = some (msOfCivil 2030 1 1 0 0 0) ∧
    (getWhoisDomainExpiryDate jsDateParseISO (.ok pairsC3)).1 =
      some (msOfCivil 2031 1 1 0 0 0) ∧
    msOfCivil 2030 1 1 0 0 0 ≠ msOfCivil 2031 1 1 0 0 0 := by
  decide

/-! ## C5 and C6 — the notification threshold loop -/

/-- The loop fires at threshold `t` exactly when neither skip guard holds and
at least one provider send succeeds. -/
def firesAt (daysRemaining : Int) (lastSent : Option Int)
    (outcomes : Int → List Bool) (t : Int) : Bool :=
  !(daysRemaining > t : Bool) && !suppressJS lastSent t &&
    sendDomainNotificationByTargetDays (outcomes t)

theorem notifyLoop_eq_find (d : Int) (ls : Option Int) (out : Int → List Bool) :
    ∀ ts : List Int, notifyLoop d ls out ts = ts.find? (firesAt d ls out)
  | [] => rfl
  | t :: ts => by
    by_cases h1 : d > t
    · rw [List.find?_cons_of_neg _ (by simp [firesAt, h1])]
      simpa [notifyLoop, h1] using notifyLoop_eq_find d ls out ts
    · by_cases h2 : suppressJS ls t = true
      · rw [List.find?_cons_of_neg _ (by simp [firesAt, h2])]
        simpa [notifyLoop, h1, h2] using notifyLoop_eq_find d ls out ts
      · by_cases h3 : sendDomainNotificationByTargetDays (out t) = true
        · rw [List.find?_cons_of_pos _ (by simp [firesAt, h1, h2, h3])]
          simp [notifyLoop, h1, h2, h3]
        · rw [List.find?_cons_of_neg _ (by simp [firesAt, h3])]
          simpa [notifyLoop, h1, h2, h3] using notifyLoop_eq_find d ls out ts

theorem find?_sorted_first {p : Int → Bool} :
    ∀ {l : List Int}, List.Sorted (fun a b => a ≤ b) l →
      ∀ {t : Int}, l.find? p = some t →
        p t = true ∧ ∀ t' ∈ l, t' < t → p t' = false
  | [], _, t, h => by simp at h
  | a :: l, hs, t, h => by
    rw [List.sorted_cons] at hs
    by_cases ha : p a
    · rw [List.find?_cons_of_pos _ ha] at h
      obtain rfl : a = t := by simpa using h
      refine ⟨ha, ?_⟩
      intro t' ht' hlt
      rcases List.mem_cons.mp ht' with rfl | ht2
      · omega
      · exact absurd (hs.1 t' ht2) (by omega)
    · rw [List.find?_cons_of_neg _ (by simpa using ha)] at h
      obtain ⟨hpt, hall⟩ := find?_sorted_first hs.2 h
      refine ⟨hpt, ?_⟩
      intro t' ht' hlt
      rcases List.mem_cons.mp ht' with rfl | ht2
      · simpa using ha
      · exact hall t' ht2 hlt

theorem sorted_sortedNotifyDays (settingDays : Option (List Int)) :
    List.Sorted (fun a b => a ≤ b) (sortedNotifyDays settingDays) :=
  List.sorted_insertionSort (fun a b => a ≤ b) _

/-- C5: whenever `sendNotifications` returns a sent threshold `t` (providers
non-empty, a valid stored expiry `e`), the loop fired at `t` (the record is in
`t`'s window, not suppressed, and at least one provider send succeeded), every
smaller configured threshold did NOT fire, and the record is persisted with
`lastExpiryNotificationSent = t` — thresholds are evaluated ascending and the
cycle stops at the first success.  The closing conjunct is the claim's
tie-break instance: `daysRemaining = 5`, thresholds `{7, 14, 21}`, no prior
notification, all sends succeeding — exactly the 7-day notification fires. -/
theorem sendNotifications_first_eligible
    (b : ExpiryBean) (now : Int) (nProviders : Nat) (outcomes : Int → List Bool)
    (settingDays : Option (List Int)) (e t : Int)
    (hn : nProviders ≠ 0) (he : b.expiry = some e)
    (ht : (sendNotifications b now nProviders outcomes settingDays).1 = some t) :
    firesAt (dayjsDiffDay e now) b.lastExpiryNotificationSent outcomes t = true ∧
    (∀ t' ∈ sortedNotifyDays settingDays, t' < t →
      firesAt (dayjsDiffDay e now) b.lastExpiryNotificationSent outcomes t' = false) ∧
    (sendNotifications b now nProviders outcomes settingDays).2 =
      { b with lastExpiryNotificationSent := some t } ∧
    sendNotifications ⟨"tie.example", some (5 * msPerDay), none, none, none⟩ 0 1
        (fun _ => [true]) none =
      (some 7, ⟨"tie.example", some (5 * msPerDay), none, some 7, none⟩) := by
  have hloop : notifyLoop (dayjsDiffDay e now) b.lastExpiryNotificationSent outcomes
      (sortedNotifyDays settingDays) = some t := by
    by_contra hne
    rcases hl : notifyLoop (dayjsDiffDay e now) b.lastExpiryNotificationSent outcomes
        (sortedNotifyDays settingDays) with _ | t'
    · simp [sendNotifications, hn, he, hl] at ht
    · have : t' = t := by simpa [sendNotifications, hn, he, hl] using ht
      exact hne (this ▸ hl)
  have hfind := hloop
  rw [notifyLoop_eq_find] at hfind
  obtain ⟨hft, hall⟩ := find?_sorted_first (sorted_sortedNotifyDays settingDays) hfind
  refine ⟨hft, hall, ?_, by decide⟩
  simp [sendNotifications, hn, he, hloop]

/-- C5 witness: the theorem applied to the tie-break instance itself. -/
theorem sendNotifications_first_eligible_witness :
    (sendNotifications ⟨"w5.example", some (5 * msPerDay), none, none, none⟩ 0 1
        (fun _ => [true]) none).2 =
      ⟨"w5.example", some (5 * msPerDay), none, some 7, none⟩ := by
  have h := sendNotifications_first_eligible
    ⟨"w5.example", some (5 * msPerDay), none, none, none⟩ 0 1 (fun _ => [true]) none
    (5 * msPerDay) 7 (by decide) rfl (by decide)
  exact h.2.2.1.trans (by decide)

/-- Modelled from the spec's words, for refinement comparison with the code:
skip threshold `t` when `daysRemaining > t`, or when
`lastNotificationThreshold` is set (non-null) and `≤ t`. -/
def specSkipThreshold (daysRemaining : Int) (lastSent : Option Int) (t : Int) : Bool :=
  (daysRemaining > t : Bool) ||
    (match lastSent with
     | none => false
     | some s => (s ≤ t : Bool))

/-- C6 counterexample: a record whose `lastExpiryNotificationSent` is the
stored threshold `0` (reachable when the configured threshold list contains 0
and an expired domain fired at it).  The claim's skip condition ("set and
≤ t") says threshold 0 is skipped on the next cycle, but the code's
`lastSent && lastSent <= targetDays` treats the stored 0 as falsy: the
threshold is NOT skipped and the loop fires (re-sends) at 0 again. -/
theorem skip_suppression_zero_cx :
    specSkipThreshold (-1) (some 0) 0 = true ∧
    skipThreshold (-1) (some 0) 0 = false ∧
    notifyLoop (-1) (some 0) (fun _ => [true]) [0] = some 0 := by
  decide

/-- C6 amended: a threshold `t` is skipped exactly when `daysRemaining > t`
(so `daysRemaining = t` is in-window and eligible), or when
`lastNotificationThreshold` is set, NON-ZERO, and `≤ t` (the stored value 0 is
falsy in JS and suppresses nothing); a notification previously sent at a
threshold strictly larger than `t` never suppresses `t`.  The last two
conjuncts tie the skip predicate to the loop: a skipped threshold is passed
over, and an unskipped threshold with a successful send ends the loop at `t`
without looking at the rest. -/
theorem skip_condition_characterization :
    (∀ d ls t, skipThreshold d ls t = true ↔
        d > t ∨ ∃ s, ls = some s ∧ s ≠ 0 ∧ s ≤ t) ∧
    (∀ d t s, t < s → skipThreshold d (some s) t = (d > t : Bool)) ∧
    (∀ ls t, skipThreshold t ls t = suppressJS ls t) ∧
    (∀ d ls out t ts, skipThreshold d ls t = true →
        notifyLoop d ls out (t :: ts) = notifyLoop d ls out ts) ∧
    (∀ d ls out t ts, skipThreshold d ls t = false →
        sendDomainNotificationByTargetDays (out t) = true →
        notifyLoop d ls out (t :: ts) = some t) := by
  refine ⟨?_, ?_, ?_, ?_, ?_⟩
  · intro d ls t
    cases ls with
    | none => simp [skipThreshold, suppressJS]
    | some s =>
      simp only [skipThreshold, suppressJS, Bool.or_eq_true, Bool.and_eq_true,
        Bool.not_eq_true', decide_eq_true_eq, decide_eq_false_iff_not,
        Option.some.injEq]
      constructor
      · rintro (h | ⟨h1, h2⟩)
        · exact Or.inl h
        · exact Or.inr ⟨s, rfl, by simpa using h1, by simpa using h2⟩
      · rintro (h | ⟨s', hs', h1, h2⟩)
        · exact Or.inl h
        · cases hs'
          exact Or.inr ⟨by simpa using h1, by simpa using h2⟩
  · intro d t s hts
    simp only [skipThreshold, suppressJS]
    have : ¬(s ≤ t) := by omega
    simp [this]
  · intro ls t
    simp [skipThreshold]
  · intro d ls out t ts hskip
    simp only [skipThreshold, Bool.or_eq_true, decide_eq_true_eq] at hskip
    rcases hskip with h | h
    · simp [notifyLoop, h]
    · by_cases h1 : d > t
      · simp [notifyLoop, h1]
      · simp [notifyLoop, h1, h]
  · intro d ls out t ts hskip hsent
    simp only [skipThreshold, Bool.or_eq_false_iff, decide_eq_false_iff_not] at hskip
    simp [notifyLoop, hskip.1, hskip.2, hsent]

/-- C6 witness: the amended characterization applied concretely — a prior
notification at the larger threshold 14 does not skip the smaller threshold
7, which fires when crossed. -/
theorem skip_condition_witness :
    skipThreshold 5 (some 14) 7 = false ∧
    notifyLoop 5 (some 14) (fun _ => [true]) [7, 14, 21] = some 7 := by
  have h := skip_condition_characterization
  have h1 : skipThreshold 5 (some 14) 7 = false := (h.2.1 5 7 14 (by decide)).trans (by decide)
  exact ⟨h1, h.2.2.2.2 5 (some 14) (fun _ => [true]) 7 [14, 21] h1 (by decide)⟩

/-! ## C8 — checkSupport taxonomy -/

/-- C8 counterexample: a supported monitor with a non-empty, non-IP target for
which tldts recognizes NO public suffix at all (`publicSuffix: null`, as
`tldts-core`'s `IResult` allows for inputs from which no valid hostname can be
extracted).  The claim says this fails with the typed `SuffixTooShort`
failure; the code instead evaluates `tld.publicSuffix.length` on `null` and
surfaces an untyped runtime `TypeError`. -/
theorem checkSupport_null_suffix_cx :
    checkSupport true (some "invalid input") ⟨none, false, none, none⟩ = .typeError ∧
    SupportOutcome.typeError ≠ SupportOutcome.suffixTooShort := by
  decide

/-- C8 amended: for a supported monitor type with a non-empty string target
that is not an IP literal — when tldts recognizes a public suffix of fewer
than 2 characters the check fails with the typed `SuffixTooShort`; when it
recognizes a suffix of 2 or more characters the check succeeds with the
registrable domain and the last dot-separated component of the suffix (so
`co.uk` reduces to `uk`, the closing conjunct); but when NO public suffix is
recognized (`publicSuffix: null`) the check surfaces an untyped `TypeError`
rather than `SuffixTooShort`. -/
theorem checkSupport_taxonomy (target : String) (r : TldResult)
    (hlen : target.length ≠ 0) (hip : r.isIp = false) :
    (∀ ps, r.publicSuffix = some ps → ps.length < 2 →
        checkSupport true (some target) r = .suffixTooShort) ∧
    (∀ ps, r.publicSuffix = some ps → 2 ≤ ps.length →
        checkSupport true (some target) r = .ok r.domain (lastDotComponent ps)) ∧
    (r.publicSuffix = none → checkSupport true (some target) r = .typeError) ∧
    lastDotComponent "co.uk" = "uk" := by
  refine ⟨?_, ?_, ?_, by decide⟩
  · intro ps hps hsmall
    simp [checkSupport, hlen, hip, hps, hsmall]
  · intro ps hps hbig
    have hnl : ¬ps.length < 2 := by omega
    simp [checkSupport, hlen, hip, hps, hnl]
  · intro hps
    simp [checkSupport, hlen, hip, hps]

/-- C8 witness: the amended taxonomy applied to the spec's own example —
`www.example.co.uk` with the multi-part suffix `co.uk` succeeds with the
registrable domain `example.co.uk` and root TLD `uk`. -/
theorem checkSupport_taxonomy_witness :
    checkSupport true (some "https://www.example.co.uk/path")
        ⟨some "www.example.co.uk", false, some "co.uk", some "example.co.uk"⟩ =
      .ok (some "example.co.uk") "uk" := by
  have h := checkSupport_taxonomy "https://www.example.co.uk/path"
    ⟨some "www.example.co.uk", false, some "co.uk", some "example.co.uk"⟩
    (by decide) rfl
  exact (h.2.1 "co.uk" rfl (by decide)).trans (by decide)

/-! ## C9 — the adapter's status taxonomy -/

/-- C9: with a concrete valid `Date` resolved and the same instant stored on
the record, the adapter throws the "expired N day(s) ago" error exactly when
`daysRemaining < 0`, sets the heartbeat UP with the
"expires in N days (ISO)" message when `daysRemaining ≥ 0`, and throws the
"No registry expiry date was found for domain …" error (which names the
domain) when `checkExpiry` resolved `undefined`.  The closing conjunct is the
claim's end-to-end vector: expiry 2030-05-01T00:00:00Z and now 2030-04-20
yield `daysRemaining = 11`, heartbeat UP, and a message containing
"11 days". -/
theorem adapter_outcome_taxonomy (dom : String) (ms now : Int) :
    (dayjsDiffDay ms now < 0 →
      adapterCheck dom (.date (some ms)) (some ms) now =
        .thrown (expiredMsg dom (dayjsDiffDay ms now))) ∧
    (0 ≤ dayjsDiffDay ms now →
      adapterCheck dom (.date (some ms)) (some ms) now =
        .up (upMsg dom (dayjsDiffDay ms now) (toISOStringModel ms))) ∧
    (adapterCheck dom .undefinedVal (some ms) now = .thrown (noExpiryMsg dom)) ∧
    adapterCheck "example.com" (.date (some (msOfCivil 2030 5 1 0 0 0)))
        (some (msOfCivil 2030 5 1 0 0 0)) (msOfCivil 2030 4 20 0 0 0) =
      .up "example.com expires in 11 days (2030-05-01T00:00:00.000Z)" := by
  refine ⟨?_, ?_, rfl, by decide⟩
  · intro hneg
    simp [adapterCheck, hneg]
  · intro hpos
    have hnn : ¬dayjsDiffDay ms now < 0 := by omega
    simp [adapterCheck, hnn]

/-- C9 witness: a past expiry (2020-01-01 seen on 2030-04-20) makes the check
throw the expired-domain error. -/
theorem adapter_outcome_witness :
    adapterCheck "w9.example" (.date (some (msOfCivil 2020 1 1 0 0 0)))
        (some (msOfCivil 2020 1 1 0 0 0)) (msOfCivil 2030 4 20 0 0 0) =
      .thrown (expiredMsg "w9.example"
        (dayjsDiffDay (msOfCivil 2020 1 1 0 0 0) (msOfCivil 2030 4 20 0 0 0))) :=
  (adapter_outcome_taxonomy "w9.example" (msOfCivil 2020 1 1 0 0 0)
    (msOfCivil 2030 4 20 0 0 0)).1 (by decide)
